import Mathlib

/- Batteries marks the `Rat` field operations `@[irreducible]` purely to keep
elaboration goals tidy; re-opening them locally lets concrete rational
computations in witnesses reduce by `decide`/`rfl` (the kernel ignores
reducibility attributes, so proofs are unaffected). -/
attribute [local semireducible] Rat.add Rat.sub Rat.mul Rat.inv

deriving instance DecidableEq for Except

/-!
Verification of `kev_weekly_epss_latency.py` (KEV × weekly EPSS extractor and
latency metrics).  The Python source is shallowly embedded below:

* calendar dates become day numbers (`Int`, days since 1970-01-01, computed by
  the standard civil-calendar conversion), so `date` comparison is `Int` order
  and `(a - b).days` is `Int` subtraction;
* Python floats become `ℚ` (the claims under study involve only exact decimal
  literals, comparisons and one multiplication, where IEEE doubles and
  rationals agree);
* a fallible Python call (an uncaught exception) becomes `Except Unit`;
* `float(field)` parse results inside a CSV record are carried as `Option ℚ`
  (`none` = the call raised `ValueError`; a returned float — including the NaN
  produced by the `or "nan"` default for an absent field — is `some`); no claim
  relies on NaN ordering;
* Python's stable `list.sort(key=...)` / `sorted` become Mathlib's stable
  `List.insertionSort`;
* dict iteration order (insertion order) is modelled explicitly: grouping keys
  appear in first-occurrence order.
-/

namespace KevEpss

/-! ## Calendar dates

`datetime.date` is modelled as a day number.  `daysFromCivil` is the standard
civil-from-calendar conversion (epoch 1970-01-01 = day 0); all arguments the
program produces are positive, where Lean's `Int` division agrees with the
algorithm's truncating division. -/

def isLeapYear (y : Int) : Bool :=
  y % 4 == 0 && (y % 100 != 0 || y % 400 == 0)

def daysInMonth (y m : Int) : Int :=
  if m == 2 then (if isLeapYear y then 29 else 28)
  else if m == 4 || m == 6 || m == 9 || m == 11 then 30
  else 31

def daysFromCivil (y m d : Int) : Int :=
  let y' := y - (if m ≤ 2 then 1 else 0)
  let era := (if 0 ≤ y' then y' else y' - 399) / 400
  let yoe := y' - era * 400
  let doy := (153 * (m + (if 2 < m then -3 else 9)) + 2) / 5 + d - 1
  let doe := yoe * 365 + yoe / 4 - yoe / 100 + doy
  era * 146097 + doe - 719468

/-! ## Character-level parsing helpers for `parse_iso_date` and the regexes -/

def isDigitCh (c : Char) : Bool := '0' ≤ c && c ≤ '9'

def digitVal (c : Char) : Int := (c.toNat : Int) - 48

def isSpaceCh (c : Char) : Bool := c == ' ' || c == '\t' || c == '\n' || c == '\r'

/-- Python `str.strip()` on a character list. -/
def stripChars (s : List Char) : List Char :=
  ((s.dropWhile isSpaceCh).reverse.dropWhile isSpaceCh).reverse

/-- `parse_iso_date`: strip, truncate to ten characters, then
`datetime.strptime(s, "%Y-%m-%d")`.  `strptime` validates the calendar date
(year ≥ 1, month 1–12, day within the month) and raises `ValueError`
otherwise, modelled as `none`.  The callers under study always supply the
regex-captured ten-character `dddd-dd-dd` shape, which is what is parsed
here (`strptime` would additionally accept shorter `%Y`/`%m`/`%d` fields;
no caller in the claims relies on that). -/
def parse_iso_date (s : List Char) : Option Int :=
  match (stripChars s).take 10 with
  | [a, b, c, d, '-', e, f, '-', g, h] =>
    if ([a, b, c, d, e, f, g, h].all isDigitCh) then
      let y := 1000 * digitVal a + 100 * digitVal b + 10 * digitVal c + digitVal d
      let m := 10 * digitVal e + digitVal f
      let dd := 10 * digitVal g + digitVal h
      if 1 ≤ y ∧ 1 ≤ m ∧ m ≤ 12 ∧ 1 ≤ dd ∧ dd ≤ daysInMonth y m then
        some (daysFromCivil y m dd)
      else none
    else none
  | _ => none

/-- One attempt of `SCORE_DATE_RE = r"score_date:(\d{4}-\d{2}-\d{2})T"` at the
head of the list; returns the captured group. -/
def scoreDateMatchAt (l : List Char) : Option (List Char) :=
  match l with
  | 's' :: 'c' :: 'o' :: 'r' :: 'e' :: '_' :: 'd' :: 'a' :: 't' :: 'e' :: ':' ::
      a :: b :: c :: d :: '-' :: e :: f :: '-' :: g :: h :: 'T' :: _ =>
    if ([a, b, c, d, e, f, g, h].all isDigitCh) then
      some [a, b, c, d, '-', e, f, '-', g, h]
    else none
  | _ => none

/-- `SCORE_DATE_RE.search`: leftmost match (the pattern is deterministic after
its start position, so trying every start position is exact). -/
def searchScoreDate : List Char → Option (List Char)
  | [] => none
  | c :: cs =>
    match scoreDateMatchAt (c :: cs) with
    | some g => some g
    | none => searchScoreDate cs

/-- One attempt of `r"epss_scores-(\d{4}-\d{2}-\d{2})\.csv"` at the head. -/
def fileDateMatchAt (l : List Char) : Option (List Char) :=
  match l with
  | 'e' :: 'p' :: 's' :: 's' :: '_' :: 's' :: 'c' :: 'o' :: 'r' :: 'e' :: 's' :: '-' ::
      a :: b :: c :: d :: '-' :: e :: f :: '-' :: g :: h :: '.' :: 'c' :: 's' :: 'v' :: _ =>
    if ([a, b, c, d, e, f, g, h].all isDigitCh) then
      some [a, b, c, d, '-', e, f, '-', g, h]
    else none
  | _ => none

def searchFileDate : List Char → Option (List Char)
  | [] => none
  | c :: cs =>
    match fileDateMatchAt (c :: cs) with
    | some g => some g
    | none => searchFileDate cs

/-- `parse_snapshot_date_from_header(first_line, fallback_from_name)`.
`Except.error ()` models the uncaught `ValueError` that `parse_iso_date`
(`strptime`) raises when a regex-captured group is not a valid calendar
date; `.ok none` is the function's own `return None`. -/
def parse_snapshot_date_from_header (first_line : List Char)
    (fallback_from_name : Option (List Char)) : Except Unit (Option Int) :=
  match searchScoreDate first_line with
  | some grp =>
    match parse_iso_date grp with
    | some d => .ok (some d)
    | none => .error ()
  | none =>
    match fallback_from_name with
    | some nm =>
      match searchFileDate nm with
      | some grp =>
        match parse_iso_date grp with
        | some d => .ok (some d)
        | none => .error ()
      | none => .ok none
    | none => .ok none

/-! ## Panel extraction (`extract_weekly_panel`) -/

structure PanelRow where
  cve : String
  kev_dateAdded : Int
  snapshot_date : Int
  epss : ℚ
  percentile : ℚ
deriving DecidableEq

/-- One data line of a snapshot file as `csv.DictReader` delivers it: the
`cve` field, and the outcomes of `float(r.get("epss") or "nan")` and
`float(r.get("percentile") or "nan")` (`none` = `ValueError` raised). -/
structure RawRecord where
  cve : String
  epss : Option ℚ
  percentile : Option ℚ
deriving DecidableEq

/-- A snapshot file: basename, first line (the comment carrying
`score_date:`), and its data records (the second line, the CSV header, is
read and discarded by the source, so it is not modelled). -/
structure SnapshotFile where
  name : List Char
  first_line : List Char
  records : List RawRecord
deriving DecidableEq

def pyStrip (s : String) : String := String.mk (stripChars s.data)

/-- The KEV mapping `cve -> dateAdded` (a Python dict with unique keys). -/
def lookupKev (kev : List (String × Int)) (c : String) : Option Int :=
  match kev with
  | [] => none
  | (k, v) :: rest => if k == c then some v else lookupKev rest c

/-- Body of the per-record loop: membership test in `kev_set`, then the two
float conversions under `try/except` (`continue` on failure = `none`). -/
def processRecord (kev : List (String × Int)) (snap : Int) (r : RawRecord) :
    Option PanelRow :=
  let cve := pyStrip r.cve
  match lookupKev kev cve with
  | none => none
  | some d0 =>
    match r.epss, r.percentile with
    | some e, some p =>
      some { cve := cve, kev_dateAdded := d0, snapshot_date := snap,
             epss := e, percentile := p }
    | _, _ => none

/-- The file loop of `extract_weekly_panel`: `acc` is the growing `rows`
list, `miss` the `missing_score_date` counter; a file whose date cannot be
determined is skipped (counter incremented), and a `ValueError` escaping
`parse_snapshot_date_from_header` aborts the whole run. -/
def extractGo (kev : List (String × Int)) :
    List PanelRow → Nat → List SnapshotFile → Except Unit (List PanelRow × Nat)
  | acc, miss, [] => .ok (acc, miss)
  | acc, miss, f :: fs =>
    match parse_snapshot_date_from_header f.first_line (some f.name) with
    | .error e => .error e
    | .ok none => extractGo kev acc (miss + 1) fs
    | .ok (some d) =>
      extractGo kev (acc ++ f.records.filterMap (processRecord kev d)) miss fs

def extract_weekly_panel (kev : List (String × Int)) (files : List SnapshotFile) :
    Except Unit (List PanelRow × Nat) :=
  extractGo kev [] 0 files

/-! ## `ecdf_xy` -/

def ecdf_xy (values : List ℚ) : List ℚ × List ℚ :=
  let xs := List.insertionSort (· ≤ ·) values
  let n := xs.length
  (xs, (List.range n).map (fun i => ((i : ℚ) + 1) / (n : ℚ)))

/-! ## `build_latency_metrics`

The imperative loop is translated per entity.  `entityList` reproduces
`by_cve.items()` order (dict insertion order = first occurrence of each cve
in `rows`); `kevDateOf` reproduces `kev_date[cve] = r.kev_dateAdded`
(last assignment wins); `cveSeries` is the group filtered from `rows`
(append order) sorted stably by `snapshot_date`. -/

def entityListAux (seen : List String) : List String → List String
  | [] => []
  | c :: cs =>
    if c ∈ seen then entityListAux seen cs
    else c :: entityListAux (c :: seen) cs

def entityList (rows : List PanelRow) : List String :=
  entityListAux [] (rows.map (fun r => r.cve))

def kevDateOf (rows : List PanelRow) (cve : String) : Int :=
  (((rows.filter (fun r => r.cve == cve)).map (fun r => r.kev_dateAdded)).getLast?).getD 0

def dateLe (a b : PanelRow) : Prop := a.snapshot_date ≤ b.snapshot_date

instance : DecidableRel dateLe := fun a b =>
  inferInstanceAs (Decidable (a.snapshot_date ≤ b.snapshot_date))

instance : IsTotal PanelRow dateLe :=
  ⟨fun a b => Int.le_total a.snapshot_date b.snapshot_date⟩

instance : IsTrans PanelRow dateLe :=
  ⟨fun _ _ _ hab hbc => le_trans hab hbc⟩

def cveSeries (rows : List PanelRow) (cve : String) : List PanelRow :=
  List.insertionSort dateLe (rows.filter (fun r => r.cve == cve))

/-- `baseline_row`: first row of the sorted series with
`snapshot_date >= d0`. -/
def baselineOf (rows : List PanelRow) (cve : String) : Option PanelRow :=
  (cveSeries rows cve).find? (fun r => decide (kevDateOf rows cve ≤ r.snapshot_date))

/-- Threshold scan: first row with `snapshot_date >= d0 and epss >= t`. -/
def thrHit (rows : List PanelRow) (cve : String) (t : ℚ) : Option PanelRow :=
  (cveSeries rows cve).find?
    (fun r => decide (kevDateOf rows cve ≤ r.snapshot_date) && decide (t ≤ r.epss))

/-- The entity's contribution to `time_to_thr[t]` (empty without a baseline
or when censored, one day-count when observed). -/
def thrObsOf (rows : List PanelRow) (cve : String) (t : ℚ) : List Int :=
  match baselineOf rows cve with
  | none => []
  | some _ =>
    match thrHit rows cve t with
    | none => []
    | some r => [r.snapshot_date - kevDateOf rows cve]

/-- The entity's contribution to `cens_thr[t]`. -/
def thrCensOf (rows : List PanelRow) (cve : String) (t : ℚ) : Nat :=
  match baselineOf rows cve with
  | none => 0
  | some _ =>
    match thrHit rows cve t with
    | none => 1
    | some _ => 0

/-- Growth scan: `target = baseline_epss * g`; first row with
`snapshot_date >= d0 and epss >= target` (only run when a baseline exists). -/
def gHit (rows : List PanelRow) (cve : String) (g : ℚ) : Option PanelRow :=
  match baselineOf rows cve with
  | none => none
  | some b =>
    (cveSeries rows cve).find?
      (fun r => decide (kevDateOf rows cve ≤ r.snapshot_date) && decide (b.epss * g ≤ r.epss))

def gObsOf (rows : List PanelRow) (cve : String) (g : ℚ) : List Int :=
  match baselineOf rows cve with
  | none => []
  | some _ =>
    match gHit rows cve g with
    | none => []
    | some r => [r.snapshot_date - kevDateOf rows cve]

def gCensOf (rows : List PanelRow) (cve : String) (g : ℚ) : Nat :=
  match baselineOf rows cve with
  | none => 0
  | some _ =>
    match gHit rows cve g with
    | none => 1
    | some _ => 0

/-- The tuple returned by `build_latency_metrics`.  The four dicts keyed by
the given thresholds / growth factors are modelled as functions that answer
on keys of the respective list (a Python dict lookup on any other key would
raise `KeyError`; claims only consult listed keys). -/
structure LatencyMetrics where
  time_to_thr : ℚ → List Int
  cens_thr : ℚ → Nat
  time_to_g : ℚ → List Int
  cens_g : ℚ → Nat
  used_cves : Nat
deriving Inhabited

def build_latency_metrics (rows : List PanelRow)
    (thresholds growth_factors : List ℚ) : LatencyMetrics where
  time_to_thr := fun t =>
    if t ∈ thresholds then (entityList rows).flatMap (fun c => thrObsOf rows c t) else []
  cens_thr := fun t =>
    if t ∈ thresholds then ((entityList rows).map (fun c => thrCensOf rows c t)).sum else 0
  time_to_g := fun g =>
    if g ∈ growth_factors then (entityList rows).flatMap (fun c => gObsOf rows c g) else []
  cens_g := fun g =>
    if g ∈ growth_factors then ((entityList rows).map (fun c => gCensOf rows c g)).sum else 0
  used_cves := ((entityList rows).filter (fun c => (baselineOf rows c).isSome)).length

/-! ## Concrete inputs used by witnesses and counterexamples

Dates are day numbers; named calendar dates go through `daysFromCivil`. -/

/-- Witness data for the baseline property: one entity added to KEV on day 10
whose snapshots fall on days 3 (before inclusion) and 12 (after). -/
def w1rows : List PanelRow :=
  [ { cve := "A", kev_dateAdded := 10, snapshot_date := 3, epss := 1/2, percentile := 0 },
    { cve := "A", kev_dateAdded := 10, snapshot_date := 12, epss := 1/5, percentile := 0 } ]

/-- The baseline row of `w1rows`. -/
def w1b : PanelRow :=
  { cve := "A", kev_dateAdded := 10, snapshot_date := 12, epss := 1/5, percentile := 0 }

/-- Witness data for censoring completeness: two entities, one crossing the
threshold, one not. -/
def w2rows : List PanelRow :=
  [ { cve := "A", kev_dateAdded := 0, snapshot_date := 0, epss := 1/1000, percentile := 0 },
    { cve := "A", kev_dateAdded := 0, snapshot_date := 7, epss := 1/2, percentile := 0 },
    { cve := "B", kev_dateAdded := 0, snapshot_date := 7, epss := 1/1000, percentile := 0 } ]

/-- Counterexample data for the zero-baseline growth claim: the entity enters
KEV on day 0 but its first (and only) snapshot, with score 0, is on day 7. -/
def c3rows : List PanelRow :=
  [ { cve := "A", kev_dateAdded := 0, snapshot_date := 7, epss := 0, percentile := 0 } ]

/-- Witness data for the amended zero-baseline growth claim. -/
def w3rows : List PanelRow :=
  [ { cve := "A", kev_dateAdded := 5, snapshot_date := 5, epss := 0, percentile := 0 } ]

/-- Baseline row of `w3rows`. -/
def w3b : PanelRow :=
  { cve := "A", kev_dateAdded := 5, snapshot_date := 5, epss := 0, percentile := 0 }

/-- Witness data for the skipped-entity policy: the only snapshot (day 3)
precedes the inclusion date (day 10), so no baseline exists. -/
def w4rows : List PanelRow :=
  [ { cve := "A", kev_dateAdded := 10, snapshot_date := 3, epss := 1/2, percentile := 0 } ]

/-- The concrete scenario of the spec: entity `X`, inclusion 2025-01-06,
weekly snapshots 2025-01-06 / 13 / 20 scoring 0.001, 0.02, 0.15. -/
def fig5rows : List PanelRow :=
  [ { cve := "X", kev_dateAdded := daysFromCivil 2025 1 6,
      snapshot_date := daysFromCivil 2025 1 6, epss := 1/1000, percentile := 0 },
    { cve := "X", kev_dateAdded := daysFromCivil 2025 1 6,
      snapshot_date := daysFromCivil 2025 1 13, epss := 1/50, percentile := 0 },
    { cve := "X", kev_dateAdded := daysFromCivil 2025 1 6,
      snapshot_date := daysFromCivil 2025 1 20, epss := 3/20, percentile := 0 } ]

/-- Witness data for threshold monotonicity: scores cross 0.01 on day 7 and
0.1 on day 14. -/
def w9rows : List PanelRow :=
  [ { cve := "A", kev_dateAdded := 0, snapshot_date := 0, epss := 1/1000, percentile := 0 },
    { cve := "A", kev_dateAdded := 0, snapshot_date := 7, epss := 1/50, percentile := 0 },
    { cve := "A", kev_dateAdded := 0, snapshot_date := 14, epss := 3/20, percentile := 0 } ]

/-- A first line whose `score_date:` marker matches the regex but names
month 13, on which `strptime` raises `ValueError`. -/
def badHeader : List Char :=
  ['#', 'x', ',', 's', 'c', 'o', 'r', 'e', '_', 'd', 'a', 't', 'e', ':',
   '2', '0', '2', '5', '-', '1', '3', '-', '0', '1', 'T', '0', '0']

/-- A first line with a valid 2025-01-06 `score_date:` marker. -/
def goodHeader : List Char :=
  ['#', 'x', ',', 's', 'c', 'o', 'r', 'e', '_', 'd', 'a', 't', 'e', ':',
   '2', '0', '2', '5', '-', '0', '1', '-', '0', '6', 'T', '0', '0']

/-! ## Helper lemmas about first-match scans -/

theorem find?_eq_some_split {α : Type} {p : α → Bool} {l : List α} {r : α}
    (h : l.find? p = some r) :
    ∃ l₁ l₂, l = l₁ ++ r :: l₂ ∧ (∀ x ∈ l₁, p x = false) ∧ p r = true := by
  induction l with
  | nil => simp [List.find?] at h
  | cons a as ih =>
    by_cases hp : p a = true
    · rw [List.find?_cons_of_pos _ hp] at h
      obtain rfl : a = r := Option.some.inj h
      exact ⟨[], as, rfl, by simp, hp⟩
    · rw [List.find?_cons_of_neg _ hp] at h
      obtain ⟨l₁, l₂, heq, hall, hr⟩ := ih h
      refine ⟨a :: l₁, l₂, by rw [heq, List.cons_append], ?_, hr⟩
      intro x hx
      rcases List.mem_cons.mp hx with rfl | hx
      · exact Bool.not_eq_true _ ▸ Bool.of_not_eq_true hp
      · exact hall x hx

theorem find?_append_cons_of_forall_false {α : Type} {q : α → Bool} {l₁ : List α}
    {b : α} (l₂ : List α) (hall : ∀ x ∈ l₁, q x = false) (hb : q b = true) :
    (l₁ ++ b :: l₂).find? q = some b := by
  induction l₁ with
  | nil => simpa using List.find?_cons_of_pos l₂ hb
  | cons a as ih =>
    have ha : q a = false := hall a (List.mem_cons_self a as)
    rw [List.cons_append, List.find?_cons_of_neg _ (by simp [ha])]
    exact ih (fun x hx => hall x (List.mem_cons_of_mem a hx))

theorem find?_append_cons_exists {α : Type} {q : α → Bool} (l₁ : List α)
    {b : α} (l₂ : List α) (hb : q b = true) :
    ∃ r, (l₁ ++ b :: l₂).find? q = some r ∧ (r ∈ l₁ ∨ r = b) := by
  induction l₁ with
  | nil => exact ⟨b, by simpa using List.find?_cons_of_pos l₂ hb, Or.inr rfl⟩
  | cons a as ih =>
    by_cases hq : q a = true
    · exact ⟨a, by rw [List.cons_append, List.find?_cons_of_pos _ hq],
        Or.inl (List.mem_cons_self a as)⟩
    · obtain ⟨r, hr, hmem⟩ := ih
      refine ⟨r, by rw [List.cons_append, List.find?_cons_of_neg _ hq]; exact hr, ?_⟩
      rcases hmem with h | h
      · exact Or.inl (List.mem_cons_of_mem a h)
      · exact Or.inr h

/-! ## Helper lemmas about per-entity contributions -/

theorem thr_contrib (rows : List PanelRow) (cve : String) (t : ℚ) :
    (thrObsOf rows cve t).length + thrCensOf rows cve t
      = if (baselineOf rows cve).isSome then 1 else 0 := by
  cases hb : baselineOf rows cve with
  | none => simp [thrObsOf, thrCensOf, hb]
  | some b =>
    cases hh : thrHit rows cve t with
    | none => simp [thrObsOf, thrCensOf, hb, hh]
    | some r => simp [thrObsOf, thrCensOf, hb, hh]

theorem g_contrib (rows : List PanelRow) (cve : String) (g : ℚ) :
    (gObsOf rows cve g).length + gCensOf rows cve g
      = if (baselineOf rows cve).isSome then 1 else 0 := by
  cases hb : baselineOf rows cve with
  | none => simp [gObsOf, gCensOf, hb]
  | some b =>
    cases hh : gHit rows cve g with
    | none => simp [gObsOf, gCensOf, hb, hh]
    | some r => simp [gObsOf, gCensOf, hb, hh]

theorem contrib_sum {f : String → List Int} {cens : String → Nat} {p : String → Bool}
    (h : ∀ c, (f c).length + cens c = if p c then 1 else 0) (l : List String) :
    (l.flatMap f).length + (l.map cens).sum = (l.filter p).length := by
  induction l with
  | nil => simp
  | cons a as ih =>
    have ha := h a
    rw [List.flatMap_cons, List.length_append, List.map_cons, List.sum_cons,
      List.filter_cons]
    by_cases hp : p a = true
    · rw [if_pos hp] at ha
      rw [if_pos hp, List.length_cons]
      omega
    · rw [if_neg hp] at ha
      rw [if_neg hp]
      omega

/-! ## Claim theorems -/

/-- C1: whenever `build_latency_metrics` selects a baseline row `b` for an
entity (the per-entity series being the entity's panel rows sorted by
snapshot date), `b` satisfies `snapshot_date >= inclusion_date` and no row
strictly earlier in the sorted series does: `b` is truly the first such row. -/
theorem baseline_is_first (rows : List PanelRow) (cve : String) (b : PanelRow)
    (hb : baselineOf rows cve = some b) :
    kevDateOf rows cve ≤ b.snapshot_date ∧
    ∃ l₁ l₂, cveSeries rows cve = l₁ ++ b :: l₂ ∧
      ∀ x ∈ l₁, ¬ kevDateOf rows cve ≤ x.snapshot_date := by
  obtain ⟨l₁, l₂, heq, hall, hbp⟩ := find?_eq_some_split hb
  refine ⟨by simpa using hbp, l₁, l₂, heq, fun x hx => ?_⟩
  simpa using hall x hx

/-- C1 witness: on `w1rows`, the baseline of entity `A` is the day-12 row,
and the day-3 row earlier in the series fails the inclusion-date test. -/
theorem baseline_is_first_witness :
    baselineOf w1rows "A" = some w1b ∧
    (kevDateOf w1rows "A" ≤ w1b.snapshot_date ∧
      ∃ l₁ l₂, cveSeries w1rows "A" = l₁ ++ w1b :: l₂ ∧
        ∀ x ∈ l₁, ¬ kevDateOf w1rows "A" ≤ x.snapshot_date) :=
  ⟨by decide, baseline_is_first w1rows "A" w1b (by decide)⟩

/-- C2: per entity with a baseline, for any threshold and growth factor, the
entity contributes exactly one of an observation or a censored increment;
consequently, for every `t` in the threshold list and `g` in the growth list,
observed count plus censored count equals `used_cves`. -/
theorem censoring_completeness (rows : List PanelRow) (T G : List ℚ) (t g : ℚ)
    (ht : t ∈ T) (hg : g ∈ G) :
    (∀ cve, (baselineOf rows cve).isSome →
        (thrObsOf rows cve t).length + thrCensOf rows cve t = 1 ∧
        (gObsOf rows cve g).length + gCensOf rows cve g = 1) ∧
    ((build_latency_metrics rows T G).time_to_thr t).length
        + (build_latency_metrics rows T G).cens_thr t
        = (build_latency_metrics rows T G).used_cves ∧
    ((build_latency_metrics rows T G).time_to_g g).length
        + (build_latency_metrics rows T G).cens_g g
        = (build_latency_metrics rows T G).used_cves := by
  refine ⟨fun cve hb => ⟨?_, ?_⟩, ?_, ?_⟩
  · rw [thr_contrib, if_pos hb]
  · rw [g_contrib, if_pos hb]
  · show (if t ∈ T then _ else _ : List Int).length + (if t ∈ T then _ else _) = _
    rw [if_pos ht, if_pos ht]
    exact contrib_sum (fun c => thr_contrib rows c t) (entityList rows)
  · show (if g ∈ G then _ else _ : List Int).length + (if g ∈ G then _ else _) = _
    rw [if_pos hg, if_pos hg]
    exact contrib_sum (fun c => g_contrib rows c g) (entityList rows)

/-- C2 witness: on `w2rows` with thresholds `[1/10]` and growth `[10]`,
entity `A` is observed and entity `B` censored for threshold `1/10`, and
observed + censored = used = 2. -/
theorem censoring_completeness_witness :
    ((1 : ℚ)/10 ∈ [(1 : ℚ)/10] ∧ (10 : ℚ) ∈ [(10 : ℚ)]) ∧
    ((∀ cve, (baselineOf w2rows cve).isSome →
        (thrObsOf w2rows cve (1/10)).length + thrCensOf w2rows cve (1/10) = 1 ∧
        (gObsOf w2rows cve 10).length + gCensOf w2rows cve 10 = 1) ∧
     ((build_latency_metrics w2rows [1/10] [10]).time_to_thr (1/10)).length
        + (build_latency_metrics w2rows [1/10] [10]).cens_thr (1/10)
        = (build_latency_metrics w2rows [1/10] [10]).used_cves ∧
     ((build_latency_metrics w2rows [1/10] [10]).time_to_g 10).length
        + (build_latency_metrics w2rows [1/10] [10]).cens_g 10
        = (build_latency_metrics w2rows [1/10] [10]).used_cves) :=
  ⟨⟨by decide, by decide⟩,
    censoring_completeness w2rows [1/10] [10] (1/10) 10 (by decide) (by decide)⟩

/-- C3 counterexample: in `c3rows` the single entity's baseline score is `0`
and the growth factor is `10`, yet the recorded observation is `7` days, not
`0` days — the baseline snapshot falls seven days after the inclusion date,
refuting the claim that a zero baseline always yields a zero-day observation. -/
theorem zero_baseline_growth_cex :
    (build_latency_metrics c3rows [] [10]).time_to_g 10 = [7] ∧
    (build_latency_metrics c3rows [] [10]).time_to_g 10 ≠ [0] := by
  exact ⟨by decide, by decide⟩

/-- C3 amended: for an entity whose baseline score is `0` and any growth
factor `g`, the growth target is `0`, the baseline row itself is the first
hit, and the observation is `baseline.snapshot_date - inclusion_date` days —
which is `0` exactly when the baseline snapshot falls on the inclusion date. -/
theorem zero_baseline_growth (rows : List PanelRow) (cve : String) (g : ℚ)
    (b : PanelRow) (hb : baselineOf rows cve = some b) (h0 : b.epss = 0) :
    gHit rows cve g = some b ∧
    gObsOf rows cve g = [b.snapshot_date - kevDateOf rows cve] ∧
    (b.snapshot_date - kevDateOf rows cve = 0 ↔ b.snapshot_date = kevDateOf rows cve) := by
  obtain ⟨l₁, l₂, heq, hall, hbp⟩ := find?_eq_some_split hb
  have hq : (decide (kevDateOf rows cve ≤ b.snapshot_date)
      && decide (b.epss * g ≤ b.epss)) = true := by
    rw [h0, zero_mul]
    simpa using hbp
  have hfind : (cveSeries rows cve).find?
      (fun r => decide (kevDateOf rows cve ≤ r.snapshot_date)
        && decide (b.epss * g ≤ r.epss)) = some b := by
    rw [heq]
    refine find?_append_cons_of_forall_false l₂ (fun x hx => ?_) hq
    rw [Bool.and_eq_false_iff]
    exact Or.inl (hall x hx)
  have hhit : gHit rows cve g = some b := by
    rw [gHit, hb]
    exact hfind
  refine ⟨hhit, ?_, by omega⟩
  rw [gObsOf, hb, hhit]

/-- C3 amended witness: in `w3rows` the baseline (score 0) falls on the
inclusion date itself, so the growth observation is `0` days. -/
theorem zero_baseline_growth_witness :
    (baselineOf w3rows "A" = some w3b ∧ w3b.epss = 0) ∧
    (gHit w3rows "A" 10 = some w3b ∧
     gObsOf w3rows "A" 10 = [w3b.snapshot_date - kevDateOf w3rows "A"] ∧
     (w3b.snapshot_date - kevDateOf w3rows "A" = 0 ↔
        w3b.snapshot_date = kevDateOf w3rows "A")) :=
  ⟨⟨by decide, by decide⟩, zero_baseline_growth w3rows "A" 10 w3b (by decide) (by decide)⟩

/-- C4: an entity with no row on/after its inclusion date (no baseline)
contributes no observation and no censored increment for any threshold or
growth factor, and is not counted in `used_cves` (which counts exactly the
entities whose baseline exists). -/
theorem no_baseline_entity_skipped (rows : List PanelRow) (cve : String)
    (h : baselineOf rows cve = none) :
    (∀ t, thrObsOf rows cve t = [] ∧ thrCensOf rows cve t = 0) ∧
    (∀ g, gObsOf rows cve g = [] ∧ gCensOf rows cve g = 0) ∧
    (∀ T G, (build_latency_metrics rows T G).used_cves
        = ((entityList rows).filter (fun c => (baselineOf rows c).isSome)).length) ∧
    cve ∉ (entityList rows).filter (fun c => (baselineOf rows c).isSome) := by
  refine ⟨fun t => ⟨by simp [thrObsOf, h], by simp [thrCensOf, h]⟩,
    fun g => ⟨by simp [gObsOf, h], by simp [gCensOf, h]⟩,
    fun T G => rfl, fun hmem => ?_⟩
  have := (List.mem_filter.mp hmem).2
  rw [h] at this
  simp at this

/-- C4 witness: in `w4rows` the only snapshot precedes the inclusion date,
so the entity has no baseline and contributes nothing. -/
theorem no_baseline_entity_skipped_witness :
    baselineOf w4rows "A" = none ∧
    ((∀ t, thrObsOf w4rows "A" t = [] ∧ thrCensOf w4rows "A" t = 0) ∧
     (∀ g, gObsOf w4rows "A" g = [] ∧ gCensOf w4rows "A" g = 0) ∧
     (∀ T G, (build_latency_metrics w4rows T G).used_cves
        = ((entityList w4rows).filter (fun c => (baselineOf w4rows c).isSome)).length) ∧
     "A" ∉ (entityList w4rows).filter (fun c => (baselineOf w4rows c).isSome)) :=
  ⟨by decide, no_baseline_entity_skipped w4rows "A" (by decide)⟩

/-- C5: on the spec's concrete scenario (`fig5rows`, thresholds 0.01 and 0.1,
growth factor 10) the observations are 7 days for threshold 0.01, 14 days for
threshold 0.1 and 7 days for growth 10, with nothing censored. -/
theorem concrete_scenario_metrics :
    (build_latency_metrics fig5rows [1/100, 1/10] [10]).time_to_thr (1/100) = [7] ∧
    (build_latency_metrics fig5rows [1/100, 1/10] [10]).time_to_thr (1/10) = [14] ∧
    (build_latency_metrics fig5rows [1/100, 1/10] [10]).time_to_g 10 = [7] ∧
    (build_latency_metrics fig5rows [1/100, 1/10] [10]).cens_thr (1/100) = 0 ∧
    (build_latency_metrics fig5rows [1/100, 1/10] [10]).cens_thr (1/10) = 0 ∧
    (build_latency_metrics fig5rows [1/100, 1/10] [10]).cens_g 10 = 0 := by
  refine ⟨by decide, by decide, by decide, by decide, by decide, by decide⟩

/-- C6: for a non-empty value list, `ecdf_xy` returns the values sorted
ascending (a sorted permutation of the input) paired with ranks `(i+1)/n`;
in particular `[1, 2, 2, 5]` yields points `(1, 1/4), (2, 1/2), (2, 3/4),
(5, 1)`, the ranks increasing by `1/n` across duplicates. -/
theorem ecdf_sorted_ranks (v : List ℚ) (_hv : v ≠ []) :
    (ecdf_xy v).1.Perm v ∧ (ecdf_xy v).1.Sorted (· ≤ ·) ∧
    (ecdf_xy v).2 = (List.range v.length).map
      (fun i => ((i : ℚ) + 1) / (v.length : ℚ)) ∧
    ecdf_xy [1, 2, 2, 5] = ([1, 2, 2, 5], [1/4, 1/2, 3/4, 1]) := by
  refine ⟨List.perm_insertionSort _ v, List.sorted_insertionSort _ v, ?_, by decide⟩
  have hlen : (List.insertionSort (· ≤ ·) v).length = v.length :=
    (List.perm_insertionSort _ v).length_eq
  rw [ecdf_xy, hlen]

/-- C6 witness: evaluated at `[1, 2, 2, 5]`. -/
theorem ecdf_sorted_ranks_witness :
    ([1, 2, 2, 5] : List ℚ) ≠ [] ∧
    ecdf_xy [1, 2, 2, 5] = ([1, 2, 2, 5], [1/4, 1/2, 3/4, 1]) :=
  ⟨by decide, (ecdf_sorted_ranks [1, 2, 2, 5] (by decide)).2.2.2⟩

/-- The threshold scan for a weaker threshold hits no later: the weaker
predicate is satisfied by the stronger hit, and the series is sorted by
snapshot date, so the first weaker hit has a snapshot date no later than the
stronger one. -/
theorem thrHit_mono (rows : List PanelRow) (cve : String) {t₁ t₂ : ℚ}
    (h12 : t₁ ≤ t₂) {r₂ : PanelRow} (h2 : thrHit rows cve t₂ = some r₂) :
    ∃ r₁, thrHit rows cve t₁ = some r₁ ∧ r₁.snapshot_date ≤ r₂.snapshot_date := by
  obtain ⟨l₁, l₂, heq, hall, hp⟩ := find?_eq_some_split h2
  have hd : kevDateOf rows cve ≤ r₂.snapshot_date ∧ t₂ ≤ r₂.epss := by
    simpa using hp
  have hq : (decide (kevDateOf rows cve ≤ r₂.snapshot_date)
      && decide (t₁ ≤ r₂.epss)) = true := by
    simp [hd.1, le_trans h12 hd.2]
  obtain ⟨r₁, hfind, hmem⟩ := find?_append_cons_exists
    (q := fun r => decide (kevDateOf rows cve ≤ r.snapshot_date)
      && decide (t₁ ≤ r.epss)) l₁ l₂ hq
  refine ⟨r₁, by rw [thrHit, heq]; exact hfind, ?_⟩
  rcases hmem with hmem | rfl
  · have hsorted : List.Sorted dateLe (cveSeries rows cve) :=
      List.sorted_insertionSort dateLe _
    rw [heq] at hsorted
    exact (List.pairwise_append.mp hsorted).2.2 r₁ hmem r₂ (List.mem_cons_self r₂ l₂)
  · exact le_refl _

/-- C9: for thresholds `t₁ ≤ t₂`, an entity observed at `d₂` days for `t₂`
is observed at some `d₁ ≤ d₂` days for `t₁`, and an entity censored for `t₁`
is censored for `t₂`: raising the threshold never yields an earlier crossing. -/
theorem threshold_monotone (rows : List PanelRow) (cve : String) (t₁ t₂ : ℚ)
    (h12 : t₁ ≤ t₂) :
    (∀ d₂, thrObsOf rows cve t₂ = [d₂] →
        ∃ d₁, thrObsOf rows cve t₁ = [d₁] ∧ d₁ ≤ d₂) ∧
    (thrCensOf rows cve t₁ = 1 → thrCensOf rows cve t₂ = 1) := by
  constructor
  · intro d₂ hobs
    cases hb : baselineOf rows cve with
    | none => rw [thrObsOf, hb] at hobs; exact absurd hobs (by simp)
    | some b =>
      cases hh : thrHit rows cve t₂ with
      | none => rw [thrObsOf, hb, hh] at hobs; exact absurd hobs (by simp)
      | some r₂ =>
        rw [thrObsOf, hb, hh] at hobs
        obtain ⟨r₁, h1, hle⟩ := thrHit_mono rows cve h12 hh
        refine ⟨r₁.snapshot_date - kevDateOf rows cve, ?_, ?_⟩
        · rw [thrObsOf, hb, h1]
        · have : r₂.snapshot_date - kevDateOf rows cve = d₂ :=
            List.singleton_injective (α := Int) hobs
          omega
  · intro hc
    cases hb : baselineOf rows cve with
    | none => rw [thrCensOf, hb] at hc; exact absurd hc (by simp)
    | some b =>
      cases h1 : thrHit rows cve t₁ with
      | some r₁ => rw [thrCensOf, hb, h1] at hc; exact absurd hc (by simp)
      | none =>
        cases h2 : thrHit rows cve t₂ with
        | some r₂ =>
          obtain ⟨r₁, h1x, _⟩ := thrHit_mono rows cve h12 h2
          rw [h1] at h1x
          exact absurd h1x (by simp)
        | none => rw [thrCensOf, hb, h2]

/-- C9 witness: on `w9rows` with `t₁ = 1/100 ≤ t₂ = 1/10`, the `t₂`
observation of 14 days forces a `t₁` observation of at most 14 days. -/
theorem threshold_monotone_witness :
    ((1 : ℚ)/100 ≤ 1/10) ∧
    ((∀ d₂, thrObsOf w9rows "A" (1/10) = [d₂] →
        ∃ d₁, thrObsOf w9rows "A" (1/100) = [d₁] ∧ d₁ ≤ d₂) ∧
     (thrCensOf w9rows "A" (1/100) = 1 → thrCensOf w9rows "A" (1/10) = 1)) :=
  ⟨by decide, threshold_monotone w9rows "A" (1/100) (1/10) (by decide)⟩

/-- C10: `ecdf_xy` is total on the empty list: it returns the pair of empty
lists (the rank expression is only evaluated for indices below the length,
so no division by zero ever happens). -/
theorem ecdf_empty_total : ecdf_xy [] = ([], []) := rfl

/-- C7: a snapshot record whose entity is in the catalog but whose score or
percentile parse raised is dropped silently: it yields no panel row for any
snapshot date, and the whole extraction is unchanged by its presence — no
error, remaining records and files processed as before. -/
theorem malformed_numeric_record_dropped (kev : List (String × Int))
    (F₁ F₂ : List SnapshotFile) (nm hl : List Char) (rs₁ rs₂ : List RawRecord)
    (r : RawRecord) (hin : (lookupKev kev (pyStrip r.cve)).isSome = true)
    (hbad : r.epss = none ∨ r.percentile = none) :
    (∀ d, processRecord kev d r = none) ∧
    extract_weekly_panel kev
        (F₁ ++ { name := nm, first_line := hl, records := rs₁ ++ r :: rs₂ } :: F₂)
      = extract_weekly_panel kev
        (F₁ ++ { name := nm, first_line := hl, records := rs₁ ++ rs₂ } :: F₂) := by
  have hnone : ∀ d, processRecord kev d r = none := by
    intro d
    obtain ⟨v, hv⟩ := Option.isSome_iff_exists.mp hin
    cases he : r.epss <;> cases hp : r.percentile <;>
      simp [processRecord, hv, he, hp] at hbad ⊢
  have key : ∀ (acc : List PanelRow) (miss : Nat) (fs : List SnapshotFile),
      extractGo kev acc miss
          (fs ++ { name := nm, first_line := hl, records := rs₁ ++ r :: rs₂ } :: F₂)
        = extractGo kev acc miss
          (fs ++ { name := nm, first_line := hl, records := rs₁ ++ rs₂ } :: F₂) := by
    intro acc miss fs
    induction fs generalizing acc miss with
    | nil =>
      rw [List.nil_append, List.nil_append, extractGo, extractGo]
      cases hpd : parse_snapshot_date_from_header hl (some nm) with
      | error e => rfl
      | ok od =>
        cases od with
        | none => rfl
        | some d =>
          have hrec : (rs₁ ++ r :: rs₂).filterMap (processRecord kev d)
              = (rs₁ ++ rs₂).filterMap (processRecord kev d) := by
            rw [List.filterMap_append, List.filterMap_append, List.filterMap_cons,
              hnone d]
          simp only [hrec]
    | cons f fs ih =>
      rw [List.cons_append, List.cons_append, extractGo, extractGo]
      cases hpd : parse_snapshot_date_from_header f.first_line (some f.name) with
      | error e => rfl
      | ok od =>
        cases od with
        | none => exact ih _ _
        | some d => exact ih _ _
  exact ⟨hnone, key [] 0 F₁⟩

/-- C7 witness: a catalogued record with an unparseable score between two
good records changes nothing in the extracted panel. -/
theorem malformed_numeric_record_dropped_witness :
    ((lookupKev [("CVE-A", 0)] (pyStrip "CVE-A")).isSome = true ∧
      (({ cve := "CVE-A", epss := none, percentile := some (1/2) } : RawRecord).epss = none ∨
       ({ cve := "CVE-A", epss := none, percentile := some (1/2) } : RawRecord).percentile = none)) ∧
    ((∀ d, processRecord [("CVE-A", 0)] d
        { cve := "CVE-A", epss := none, percentile := some (1/2) } = none) ∧
     extract_weekly_panel [("CVE-A", 0)]
        ([] ++ { name := [], first_line := goodHeader,
                 records := [{ cve := "CVE-A", epss := some (1/2), percentile := some (3/4) }] ++
                   { cve := "CVE-A", epss := none, percentile := some (1/2) } ::
                   [{ cve := "CVE-A", epss := some (1/4), percentile := some (1/4) }] } :: [])
      = extract_weekly_panel [("CVE-A", 0)]
        ([] ++ { name := [], first_line := goodHeader,
                 records := [{ cve := "CVE-A", epss := some (1/2), percentile := some (3/4) }] ++
                   [{ cve := "CVE-A", epss := some (1/4), percentile := some (1/4) }] } :: [])) :=
  ⟨⟨by decide, Or.inl rfl⟩,
    malformed_numeric_record_dropped [("CVE-A", 0)] [] [] [] goodHeader
      [{ cve := "CVE-A", epss := some (1/2), percentile := some (3/4) }]
      [{ cve := "CVE-A", epss := some (1/4), percentile := some (1/4) }]
      { cve := "CVE-A", epss := none, percentile := some (1/2) }
      (by decide) (Or.inl rfl)⟩

/-- C8, evaluated at the failing input: a first line whose `score_date`
marker matches the regex but names calendar month 13 makes `parse_iso_date`
(`strptime`) raise; the exception escapes `parse_snapshot_date_from_header`
uncaught, so `extract_weekly_panel` aborts the run instead of skipping the
file — contradicting the never-aborts part of the claim. -/
theorem invalid_header_date_aborts :
    parse_snapshot_date_from_header badHeader (some []) = .error () ∧
    extract_weekly_panel []
        [{ name := [], first_line := badHeader, records := [] }] = .error () ∧
    parse_snapshot_date_from_header goodHeader (some []) =
      .ok (some (daysFromCivil 2025 1 6)) := by
  exact ⟨by decide, by decide, by decide⟩

end KevEpss
